import Mathlib

/-!
Verification of the RideEasy build-and-run orchestrator (`run.py`).

The script is a single-process four-stage pipeline:
Preflight (required-file check) → Clean (stale artifact removal) →
Compiler Resolver → Build Invoker → Run Invoker.

Shallow embedding: the filesystem is the list of file names present in the
working directory, the search path is an oracle `String → Bool` (one call of
`shutil.which`), the platform is the string returned by `platform.system()`,
and the two subprocess invocations (compiler, built artifact) are modelled
by outcome oracles carried in the environment.  `main` is the orchestrator
entry point; it returns a record of the process exit code together with the
observable trace of the run (stages executed, names reported missing, the
filesystem state after Clean, the resolved compiler, the constructed build
command, the build classification and the run classification).
-/

namespace RideEasy

/-- `run.py` line 117: the fixed required source files. -/
def required_files : List String := ["main.cpp", "User.h", "RideManager.h"]

/-- `run.py` line 21: ordered compiler preference list. -/
def compilers : List String := ["g++", "clang++"]

/-- `run.py` line 37: candidate artifact names removed by `clean_build`. -/
def files_to_remove : List String := ["rideeasy.exe", "rideeasy", "a.out"]

/-- `run.py` line 69: the fixed compilation timeout (seconds). -/
def compile_timeout : Nat := 30

/-- `check_compiler` (`run.py` lines 19-33): probe each candidate in order
against the search-path oracle and return the first hit, `none` otherwise. -/
def check_compiler (which : String → Bool) : Option String :=
  compilers.find? which

/-- Python substring containment on character lists: `needle in hay`. -/
def listContainsSub (needle : List Char) : List Char → Bool
  | [] => needle.isEmpty
  | c :: t => needle.isPrefixOf (c :: t) || listContainsSub needle t

/-- Python `needle in hay` on strings (`run.py` line 63: `"g++" in compiler`). -/
def strContains (hay needle : String) : Bool :=
  listContainsSub needle.toList hay.toList

/-- One iteration of the `clean_build` loop (`run.py` lines 38-41): if the
file exists, `os.remove` it and log its name. -/
def cleanStep (acc : List String × List String) (f : String) :
    List String × List String :=
  if f ∈ acc.1 then (acc.1.filter (fun g => g ≠ f), acc.2 ++ [f]) else acc

/-- `clean_build` (`run.py` lines 35-41): remove each candidate artifact if
present.  Returns the resulting filesystem and the list of names logged as
cleaned. -/
def clean_build (fs : List String) : List String × List String :=
  files_to_remove.foldl cleanStep (fs, [])

/-- `exe_name` (`run.py` line 48): platform-dependent artifact name. -/
def exe_name (plat : String) : String :=
  if plat = "Windows" then "rideeasy.exe" else "rideeasy"

/-- `cmd` (`run.py` lines 51-64): the compilation command token list, with
static-linking flags appended for a Windows g++ toolchain. -/
def build_cmd (compiler plat : String) : List String :=
  let base := [compiler, "-std=c++17", "-Wall", "-Wextra", "-O2", "-I.",
    "main.cpp", "-o", exe_name plat]
  if plat = "Windows" ∧ strContains compiler "g++" = true then
    base ++ ["-static-libgcc", "-static-libstdc++"]
  else
    base

/-- Outcome of the compiler subprocess (`subprocess.run` at `run.py` line 69):
it exited with a return code and captured streams, it exceeded the timeout
(`TimeoutExpired`), or it could not be spawned (any other exception). -/
inductive CompileOutcome where
  | exited (returncode : Int) (stdout stderr : String)
  | timedOut
  | spawnError (msg : String)
deriving DecidableEq

/-- Classification the Build stage produces (`run.py` lines 68-85): the four
print-and-return branches of `compile_project`. -/
inductive CompileReport where
  | success (exe : String)
  | compilationFailed (stdout stderr : String)
  | compilationTimedOut
  | compilerInvocationError (msg : String)
deriving DecidableEq

/-- `compile_project` (`run.py` lines 43-85), classification part: return
code zero is success with the artifact name; non-zero surfaces the captured
stdout/stderr; `TimeoutExpired` and spawn failure are the remaining
branches. -/
def compile_project (compiler plat : String) :
    CompileOutcome → CompileReport
  | .exited code out err =>
      if code = 0 then .success (exe_name plat)
      else .compilationFailed out err
  | .timedOut => .compilationTimedOut
  | .spawnError m => .compilerInvocationError m

/-- The value `compile_project` returns to `main`: the artifact name on
success (`run.py` line 73), `None` on every failure branch. -/
def compile_artifact : CompileReport → Option String
  | .success e => some e
  | .compilationFailed _ _ => none
  | .compilationTimedOut => none
  | .compilerInvocationError _ => none

/-- Outcome of executing the built artifact (`subprocess.run` with
`check=True` at `run.py` lines 94-96): it exited with a code, the operator
interrupted it (`KeyboardInterrupt`), or it could not be launched. -/
inductive RunOutcome where
  | exited (returncode : Int)
  | interrupted
  | launchFailure (msg : String)
deriving DecidableEq

/-- Classification the Run stage reports (`run.py` lines 87-106): the four
print branches of `run_executable`. -/
inductive RunReport where
  | ok
  | runtimeFailure (returncode : Int)
  | runInterrupted
  | runInvocationError (msg : String)
deriving DecidableEq

/-- `run_executable` (`run.py` lines 87-106): translate every outcome of the
child process into a report; each exception branch is caught, none
escapes. -/
def run_executable : RunOutcome → RunReport
  | .exited code => if code = 0 then .ok else .runtimeFailure code
  | .interrupted => .runInterrupted
  | .launchFailure m => .runInvocationError m

/-- The pipeline stages of `main`, in source order. -/
inductive Stage where
  | preflight
  | clean
  | resolver
  | build
  | run
deriving DecidableEq

/-- The environment a single invocation of `main` observes: the files in the
working directory, the search-path oracle, the host platform string, and the
outcomes of the two subprocesses. -/
structure Env where
  fs : List String
  which : String → Bool
  platform : String
  compileOutcome : CompileOutcome
  runOutcome : RunOutcome

/-- The observable result of one invocation of `main`: the process exit code
and the trace of the run. -/
structure MainResult where
  exitCode : Nat
  stages : List Stage
  missingReported : Option (List String)
  fsAfterClean : Option (List String)
  resolved : Option String
  cmd : Option (List String)
  compileReport : Option CompileReport
  runReport : Option RunReport
deriving DecidableEq

/-- `run.py` line 118: the required files absent from the working
directory, in the order of `required_files`. -/
def missingOf (env : Env) : List String :=
  required_files.filter (fun f => f ∉ env.fs)

/-- `main` (`run.py` lines 108-140): preflight check, clean, compiler
resolution, compile, run; each failure short-circuits with exit code 1, a
completed pipeline returns 0 whatever the run outcome. -/
def main (env : Env) : MainResult :=
  let missing := missingOf env
  if missing ≠ [] then
    { exitCode := 1, stages := [.preflight], missingReported := some missing,
      fsAfterClean := none, resolved := none, cmd := none,
      compileReport := none, runReport := none }
  else
    let fs1 := (clean_build env.fs).1
    match check_compiler env.which with
    | none =>
        { exitCode := 1, stages := [.preflight, .clean, .resolver],
          missingReported := none, fsAfterClean := some fs1, resolved := none,
          cmd := none, compileReport := none, runReport := none }
    | some compiler =>
        let cmd := build_cmd compiler env.platform
        let report := compile_project compiler env.platform env.compileOutcome
        match compile_artifact report with
        | none =>
            { exitCode := 1,
              stages := [.preflight, .clean, .resolver, .build],
              missingReported := none, fsAfterClean := some fs1,
              resolved := some compiler, cmd := some cmd,
              compileReport := some report, runReport := none }
        | some _exe =>
            { exitCode := 0,
              stages := [.preflight, .clean, .resolver, .build, .run],
              missingReported := none, fsAfterClean := some fs1,
              resolved := some compiler, cmd := some cmd,
              compileReport := some report,
              runReport := some (run_executable env.runOutcome) }

/-! ### Scenario lemmas for `main` -/

/-- Helper: result of `main` when a required file is missing. -/
theorem main_of_missing (env : Env) (h : missingOf env ≠ []) :
    main env =
      { exitCode := 1, stages := [.preflight],
        missingReported := some (missingOf env),
        fsAfterClean := none, resolved := none, cmd := none,
        compileReport := none, runReport := none } := by
  simp only [main]
  rw [if_pos h]

/-- Helper: result of `main` when preflight passes but no compiler is
found. -/
theorem main_of_nocompiler (env : Env) (h1 : missingOf env = [])
    (h2 : check_compiler env.which = none) :
    main env =
      { exitCode := 1, stages := [.preflight, .clean, .resolver],
        missingReported := none, fsAfterClean := some (clean_build env.fs).1,
        resolved := none, cmd := none, compileReport := none,
        runReport := none } := by
  simp only [main, h1, h2]
  rw [if_neg (fun hc => hc rfl)]

/-- Helper: result of `main` when preflight and resolution succeed but the
build fails. -/
theorem main_of_buildfail (env : Env) (c : String) (h1 : missingOf env = [])
    (h2 : check_compiler env.which = some c)
    (h3 : compile_artifact
      (compile_project c env.platform env.compileOutcome) = none) :
    main env =
      { exitCode := 1, stages := [.preflight, .clean, .resolver, .build],
        missingReported := none, fsAfterClean := some (clean_build env.fs).1,
        resolved := some c, cmd := some (build_cmd c env.platform),
        compileReport :=
          some (compile_project c env.platform env.compileOutcome),
        runReport := none } := by
  simp only [main, h1, h2, h3]
  rw [if_neg (fun hc => hc rfl)]

/-- Helper: result of `main` when preflight, resolution and build all
succeed. -/
theorem main_of_success (env : Env) (c e : String) (h1 : missingOf env = [])
    (h2 : check_compiler env.which = some c)
    (h3 : compile_artifact
      (compile_project c env.platform env.compileOutcome) = some e) :
    main env =
      { exitCode := 0,
        stages := [.preflight, .clean, .resolver, .build, .run],
        missingReported := none, fsAfterClean := some (clean_build env.fs).1,
        resolved := some c, cmd := some (build_cmd c env.platform),
        compileReport :=
          some (compile_project c env.platform env.compileOutcome),
        runReport := some (run_executable env.runOutcome) } := by
  simp only [main, h1, h2, h3]
  rw [if_neg (fun hc => hc rfl)]

/-! ### Helper lemmas -/

/-- Helper: `compile_project` hands an artifact back to `main` exactly when
the compiler exited with return code zero. -/
theorem compile_artifact_some (c p : String) (o : CompileOutcome) (e : String)
    (h : compile_artifact (compile_project c p o) = some e) :
    ∃ out err, o = CompileOutcome.exited 0 out err ∧ e = exe_name p := by
  cases o with
  | exited code out err =>
      by_cases hc : code = 0
      · subst hc
        refine ⟨out, err, rfl, ?_⟩
        simpa [compile_project, compile_artifact] using h.symm
      · simp [compile_project, compile_artifact, hc] at h
  | timedOut => simp [compile_project, compile_artifact] at h
  | spawnError m => simp [compile_project, compile_artifact] at h

/-- Helper: the Run stage executes exactly when preflight, resolution and
the compile all succeed. -/
theorem main_run_iff (env : Env) :
    Stage.run ∈ (main env).stages ↔
      (missingOf env = [] ∧ ∃ c, check_compiler env.which = some c ∧
        ∃ out err, env.compileOutcome = CompileOutcome.exited 0 out err) := by
  by_cases h1 : missingOf env = []
  · cases h2 : check_compiler env.which with
    | none =>
        rw [main_of_nocompiler env h1 h2]
        simp
    | some c =>
        cases h3 : compile_artifact
            (compile_project c env.platform env.compileOutcome) with
        | none =>
            rw [main_of_buildfail env c h1 h2 h3]
            constructor
            · intro hmem; simp at hmem
            · rintro ⟨-, c2, hc2, out, err, ho⟩
              cases Option.some.inj hc2
              rw [ho] at h3
              simp [compile_project, compile_artifact] at h3
        | some e =>
            rw [main_of_success env c e h1 h2 h3]
            obtain ⟨out, err, ho, -⟩ :=
              compile_artifact_some c env.platform _ e h3
            exact ⟨fun _ => ⟨h1, c, rfl, out, err, ho⟩, fun _ => by simp⟩
  · rw [main_of_missing env h1]
    constructor
    · intro hmem; simp at hmem
    · rintro ⟨hc, -⟩; exact absurd hc h1

/-- Helper: the orchestrator exits 0 exactly when the Run stage was
reached. -/
theorem main_exitCode_zero_iff (env : Env) :
    (main env).exitCode = 0 ↔ Stage.run ∈ (main env).stages := by
  by_cases h1 : missingOf env = []
  · cases h2 : check_compiler env.which with
    | none => rw [main_of_nocompiler env h1 h2]; simp
    | some c =>
        cases h3 : compile_artifact
            (compile_project c env.platform env.compileOutcome) with
        | none => rw [main_of_buildfail env c h1 h2 h3]; simp
        | some e => rw [main_of_success env c e h1 h2 h3]; simp
  · rw [main_of_missing env h1]; simp

/-- Helper: the orchestrator exit code is always 0 or 1. -/
theorem main_exitCode_zero_or_one (env : Env) :
    (main env).exitCode = 0 ∨ (main env).exitCode = 1 := by
  by_cases h1 : missingOf env = []
  · cases h2 : check_compiler env.which with
    | none => rw [main_of_nocompiler env h1 h2]; exact Or.inr rfl
    | some c =>
        cases h3 : compile_artifact
            (compile_project c env.platform env.compileOutcome) with
        | none => rw [main_of_buildfail env c h1 h2 h3]; exact Or.inr rfl
        | some e => rw [main_of_success env c e h1 h2 h3]; exact Or.inl rfl
  · rw [main_of_missing env h1]; exact Or.inr rfl

/-- Helper: whenever `main` records a build command, it is `build_cmd` of
the resolved compiler and the host platform. -/
theorem main_cmd_some (env : Env) (cmd : List String)
    (h : (main env).cmd = some cmd) :
    ∃ c, (main env).resolved = some c ∧ cmd = build_cmd c env.platform := by
  by_cases h1 : missingOf env = []
  · cases h2 : check_compiler env.which with
    | none => rw [main_of_nocompiler env h1 h2] at h; simp at h
    | some c =>
        cases h3 : compile_artifact
            (compile_project c env.platform env.compileOutcome) with
        | none =>
            rw [main_of_buildfail env c h1 h2 h3] at h ⊢
            exact ⟨c, rfl, (Option.some.inj h).symm⟩
        | some e =>
            rw [main_of_success env c e h1 h2 h3] at h ⊢
            exact ⟨c, rfl, (Option.some.inj h).symm⟩
  · rw [main_of_missing env h1] at h; simp at h

/-- Helper: a `cleanStep` on `f` leaves no file named `f` behind. -/
theorem cleanStep_not_mem_self (acc : List String × List String)
    (f : String) : f ∉ (cleanStep acc f).1 := by
  unfold cleanStep
  split
  next hmem =>
    intro hf
    have h2 := (List.mem_filter.mp hf).2
    simp at h2
  next hmem => exact hmem

/-- Helper: a `cleanStep` never adds a file. -/
theorem cleanStep_not_mem (acc : List String × List String) (f g : String)
    (h : g ∉ acc.1) : g ∉ (cleanStep acc f).1 := by
  unfold cleanStep
  split
  · intro hg; exact h (List.mem_filter.mp hg).1
  · exact h

/-- Helper: a `cleanStep` on an absent file is the identity. -/
theorem cleanStep_of_not_mem (acc : List String × List String) (f : String)
    (h : f ∉ acc.1) : cleanStep acc f = acc := by
  unfold cleanStep
  rw [if_neg h]

/-- Helper: `clean_build` unfolded over the three candidate artifact
names. -/
theorem clean_build_eq (fs : List String) :
    clean_build fs =
      cleanStep (cleanStep (cleanStep (fs, []) "rideeasy.exe") "rideeasy")
        "a.out" := rfl

/-- Helper: after `clean_build`, no candidate artifact name is present. -/
theorem clean_removes (fs : List String) :
    ∀ a ∈ files_to_remove, a ∉ (clean_build fs).1 := by
  intro a ha
  rw [clean_build_eq]
  rcases (by simpa [files_to_remove] using ha :
      a = "rideeasy.exe" ∨ a = "rideeasy" ∨ a = "a.out") with rfl | rfl | rfl
  · exact cleanStep_not_mem _ _ _
      (cleanStep_not_mem _ _ _ (cleanStep_not_mem_self _ _))
  · exact cleanStep_not_mem _ _ _ (cleanStep_not_mem_self _ _)
  · exact cleanStep_not_mem_self _ _

/-- Helper: `clean_build` on a directory with no candidate artifact does
nothing and logs nothing. -/
theorem clean_build_of_clean (fs : List String)
    (h : ∀ a ∈ files_to_remove, a ∉ fs) : clean_build fs = (fs, []) := by
  have h1 : "rideeasy.exe" ∉ fs := h _ (by simp [files_to_remove])
  have h2 : "rideeasy" ∉ fs := h _ (by simp [files_to_remove])
  have h3 : "a.out" ∉ fs := h _ (by simp [files_to_remove])
  rw [clean_build_eq, cleanStep_of_not_mem (fs, []) _ h1,
    cleanStep_of_not_mem (fs, []) _ h2, cleanStep_of_not_mem (fs, []) _ h3]

/-- Helper: the shape of the build command: nine fixed tokens followed by
the static-linking flags exactly under the Windows-g++ condition. -/
theorem build_cmd_eq (c p : String) :
    build_cmd c p =
      [c, "-std=c++17", "-Wall", "-Wextra", "-O2", "-I.", "main.cpp", "-o",
        exe_name p] ++
      (if p = "Windows" ∧ strContains c "g++" = true then
        ["-static-libgcc", "-static-libstdc++"]
      else []) := by
  unfold build_cmd
  split
  · rfl
  · simp

/-! ### Concrete environments used by the witnesses -/

/-- An empty working directory with nothing on the search path. -/
def envEmpty : Env :=
  { fs := [], which := fun _ => false, platform := "Linux",
    compileOutcome := .timedOut, runOutcome := .interrupted }

/-- All required files present but no compiler on the search path. -/
def envNoComp : Env :=
  { fs := ["main.cpp", "User.h", "RideManager.h"], which := fun _ => false,
    platform := "Linux", compileOutcome := .timedOut,
    runOutcome := .exited 0 }

/-- Required files present, g++ on the path, compile succeeds, and the
artifact is then interrupted by the operator. -/
def envGood : Env :=
  { fs := ["main.cpp", "User.h", "RideManager.h"],
    which := fun s => s == "g++", platform := "Linux",
    compileOutcome := .exited 0 "" "", runOutcome := .interrupted }

/-- Required files present, g++ on the path, compile times out. -/
def envTimeout : Env :=
  { fs := ["main.cpp", "User.h", "RideManager.h"],
    which := fun s => s == "g++", platform := "Linux",
    compileOutcome := .timedOut, runOutcome := .exited 0 }

/-- A different working directory, search path and subprocess outcomes than
`envGood`, but the same platform and the same resolved compiler. -/
def envAlt : Env :=
  { fs := ["main.cpp", "User.h", "RideManager.h", "notes.txt", "a.out"],
    which := fun s => s == "g++" || s == "clang++", platform := "Linux",
    compileOutcome := .exited 1 "so" "se", runOutcome := .exited 3 }

/-! ### Claim theorems -/

/-- C1: if any required file (`main.cpp`, `User.h`, `RideManager.h`) is
absent, `main` stops at Preflight with exit code 1, reports exactly the
absent names, and executes no clean, resolver, build or run stage (in
particular no compiler probe and no command construction). -/
theorem preflight_missing_blocks (env : Env)
    (h : ∃ f ∈ required_files, f ∉ env.fs) :
    main env =
      { exitCode := 1, stages := [Stage.preflight],
        missingReported :=
          some (required_files.filter (fun f => f ∉ env.fs)),
        fsAfterClean := none, resolved := none, cmd := none,
        compileReport := none, runReport := none } := by
  have hne : missingOf env ≠ [] := by
    obtain ⟨f, hf, hnf⟩ := h
    intro he
    have hmem : f ∈ missingOf env := by
      simp [missingOf, List.mem_filter, hf, hnf]
    rw [he] at hmem
    exact absurd hmem (List.not_mem_nil f)
  exact main_of_missing env hne

/-- Witness for C1: the empty working directory fails Preflight reporting
exactly the three required names, with exit code 1 and no later stage. -/
theorem preflight_missing_blocks_witness :
    main envEmpty =
      { exitCode := 1, stages := [Stage.preflight],
        missingReported := some ["main.cpp", "User.h", "RideManager.h"],
        fsAfterClean := none, resolved := none, cmd := none,
        compileReport := none, runReport := none } :=
  (preflight_missing_blocks envEmpty
    ⟨"main.cpp", by decide, by decide⟩).trans (by decide)

/-- C2: the build command is the token sequence compiler name, -std=c++17,
-Wall, -Wextra, -O2, -I., main.cpp, -o, then rideeasy.exe on Windows and
rideeasy otherwise, with -static-libgcc -static-libstdc++ appended exactly
when the platform is Windows and the compiler name contains g++. -/
theorem build_cmd_tokens (compiler plat : String) :
    build_cmd compiler plat =
      [compiler, "-std=c++17", "-Wall", "-Wextra", "-O2", "-I.", "main.cpp",
        "-o", if plat = "Windows" then "rideeasy.exe" else "rideeasy"] ++
      (if plat = "Windows" ∧ strContains compiler "g++" = true then
        ["-static-libgcc", "-static-libstdc++"]
      else []) := by
  simp only [build_cmd_eq, exe_name]

/-- C3: the orchestrator exits 0 exactly when Preflight, Resolver and Build
all succeed; the exit code is always 0 or 1; and it is unchanged by the Run
stage outcome (non-zero artifact exit, launch failure or interrupt). -/
theorem exitCode_spec (env : Env) :
    ((main env).exitCode = 0 ↔
      (missingOf env = [] ∧ ∃ c, check_compiler env.which = some c ∧
        ∃ e, compile_artifact
          (compile_project c env.platform env.compileOutcome) = some e))
    ∧ ((main env).exitCode = 0 ∨ (main env).exitCode = 1)
    ∧ ∀ r : RunOutcome,
        (main { env with runOutcome := r }).exitCode =
          (main env).exitCode := by
  refine ⟨?_, main_exitCode_zero_or_one env, ?_⟩
  · rw [main_exitCode_zero_iff, main_run_iff]
    constructor
    · rintro ⟨h1, c, h2, out, err, ho⟩
      exact ⟨h1, c, h2, exe_name env.platform,
        by rw [ho]; simp [compile_project, compile_artifact]⟩
    · rintro ⟨h1, c, h2, e, he⟩
      obtain ⟨out, err, ho, -⟩ :=
        compile_artifact_some c env.platform _ e he
      exact ⟨h1, c, h2, out, err, ho⟩
  · intro r
    have hiff : (main { env with runOutcome := r }).exitCode = 0 ↔
        (main env).exitCode = 0 := by
      rw [main_exitCode_zero_iff, main_exitCode_zero_iff,
        main_run_iff, main_run_iff]
      exact Iff.rfl
    rcases main_exitCode_zero_or_one env with h0 | h0
    · rw [h0, hiff.mpr h0]
    · rcases main_exitCode_zero_or_one { env with runOutcome := r }
        with h0r | h0r
      · have h00 := hiff.mp h0r
        rw [h00] at h0
        exact absurd h0 (by decide)
      · rw [h0, h0r]

/-- Witness for C3: in an environment where all three tooling stages
succeed, the exit code is 0. -/
theorem exitCode_spec_witness : (main envGood).exitCode = 0 :=
  (exitCode_spec envGood).1.mpr
    ⟨by decide, "g++", by decide, "rideeasy", by decide⟩

/-- C4: `compile_project` classifies the compiler subprocess result into
exactly four outcomes: exit code 0 is success with the artifact name,
non-zero exit is CompilationFailed carrying the captured stdout and stderr,
a timeout is CompilationTimedOut, a spawn failure is
CompilerInvocationError; and after any non-success outcome the Run stage
never executes. -/
theorem compile_classification (c p : String) :
    (∀ out err : String,
      compile_project c p (.exited 0 out err) = .success (exe_name p))
    ∧ (∀ (code : Int) (out err : String), code ≠ 0 →
        compile_project c p (.exited code out err) =
          .compilationFailed out err)
    ∧ compile_project c p .timedOut = .compilationTimedOut
    ∧ (∀ msg, compile_project c p (.spawnError msg) =
        .compilerInvocationError msg)
    ∧ ∀ env : Env,
        (∀ out err : String,
          env.compileOutcome ≠ CompileOutcome.exited 0 out err) →
        Stage.run ∉ (main env).stages := by
  refine ⟨fun out err => by simp [compile_project], ?_, rfl, fun msg => rfl,
    ?_⟩
  · intro code out err hc
    simp [compile_project, hc]
  · intro env hne hmem
    rw [main_run_iff] at hmem
    obtain ⟨-, c2, -, out, err, ho⟩ := hmem
    exact hne out err ho

/-- Witness for C4: a compiler exiting 1 is classified CompilationFailed
with its captured streams, and a timed-out compile never reaches the Run
stage. -/
theorem compile_classification_witness :
    compile_project "g++" "Linux" (.exited 1 "out" "err") =
      .compilationFailed "out" "err"
    ∧ Stage.run ∉ (main envTimeout).stages :=
  ⟨(compile_classification "g++" "Linux").2.1 1 "out" "err" (by decide),
    (compile_classification "g++" "Linux").2.2.2.2 envTimeout
      (fun out err h => by simp [envTimeout] at h)⟩

/-- C5: the resolver returns the first of g++, clang++ found on the search
path; when neither is present, `main` stops after the resolver with exit
code 1, constructing no build command and attempting no compilation. -/
theorem resolver_first_found :
    (∀ which : String → Bool,
      check_compiler which =
        if which "g++" = true then some "g++"
        else if which "clang++" = true then some "clang++" else none)
    ∧ ∀ env : Env, missingOf env = [] → check_compiler env.which = none →
        main env =
          { exitCode := 1, stages := [.preflight, .clean, .resolver],
            missingReported := none,
            fsAfterClean := some (clean_build env.fs).1,
            resolved := none, cmd := none, compileReport := none,
            runReport := none } := by
  constructor
  · intro which
    cases hw1 : which "g++" <;> cases hw2 : which "clang++" <;>
      simp [check_compiler, compilers, List.find?, hw1, hw2]
  · intro env h1 h2
    exact main_of_nocompiler env h1 h2

/-- Witness for C5: with all files present and an empty search path, the
run stops after the resolver with exit code 1 and no build stage. -/
theorem resolver_first_found_witness :
    main envNoComp =
      { exitCode := 1, stages := [.preflight, .clean, .resolver],
        missingReported := none,
        fsAfterClean := some ["main.cpp", "User.h", "RideManager.h"],
        resolved := none, cmd := none, compileReport := none,
        runReport := none } :=
  (resolver_first_found.2 envNoComp (by decide) (by decide)).trans
    (by decide)

/-- C6: `run_executable` translates every artifact outcome without an
unhandled fault: exit 0 is ok, a non-zero exit is RuntimeFailure with that
code, an operator interrupt is RunInterrupted, a launch failure is
RunInvocationError; and whenever the Run stage executes the orchestrator
still exits 0, so none of these is a tooling crash. -/
theorem run_outcome_translation :
    run_executable (RunOutcome.exited 0) = RunReport.ok
    ∧ (∀ code : Int, code ≠ 0 →
        run_executable (RunOutcome.exited code) =
          RunReport.runtimeFailure code)
    ∧ run_executable RunOutcome.interrupted = RunReport.runInterrupted
    ∧ (∀ msg, run_executable (RunOutcome.launchFailure msg) =
        RunReport.runInvocationError msg)
    ∧ ∀ env : Env, Stage.run ∈ (main env).stages →
        (main env).exitCode = 0 := by
  refine ⟨rfl, ?_, rfl, fun msg => rfl, ?_⟩
  · intro code hc
    simp [run_executable, hc]
  · intro env h
    exact (main_exitCode_zero_iff env).mpr h

/-- Witness for C6: an artifact exiting 5 is reported as RuntimeFailure 5,
and an interrupted run still ends with orchestrator exit code 0. -/
theorem run_outcome_translation_witness :
    run_executable (RunOutcome.exited 5) = RunReport.runtimeFailure 5
    ∧ (main envGood).exitCode = 0 :=
  ⟨run_outcome_translation.2.1 5 (by decide),
    run_outcome_translation.2.2.2.2 envGood (by decide)⟩

/-- C7: after Clean none of rideeasy.exe, rideeasy, a.out remains in the
working directory; whenever the Build stage executes, the Clean stage
executed before it and the filesystem entering Build is exactly the cleaned
one, so no stale artifact survives into a Compile stage. -/
theorem clean_stage_spec :
    (∀ fs : List String, ∀ a ∈ files_to_remove, a ∉ (clean_build fs).1)
    ∧ (∀ env : Env, Stage.build ∈ (main env).stages →
        Stage.clean ∈ (main env).stages ∧
        (main env).fsAfterClean = some (clean_build env.fs).1)
    ∧ ∀ (env : Env) (fs1 : List String),
        (main env).fsAfterClean = some fs1 →
        ∀ a ∈ files_to_remove, a ∉ fs1 := by
  refine ⟨clean_removes, ?_, ?_⟩
  · intro env hb
    by_cases h1 : missingOf env = []
    · cases h2 : check_compiler env.which with
      | none => rw [main_of_nocompiler env h1 h2]; exact ⟨by simp, rfl⟩
      | some c =>
          cases h3 : compile_artifact
              (compile_project c env.platform env.compileOutcome) with
          | none =>
              rw [main_of_buildfail env c h1 h2 h3]
              exact ⟨by simp, rfl⟩
          | some e =>
              rw [main_of_success env c e h1 h2 h3]
              exact ⟨by simp, rfl⟩
    · rw [main_of_missing env h1] at hb
      simp at hb
  · intro env fs1 hf
    by_cases h1 : missingOf env = []
    · cases h2 : check_compiler env.which with
      | none =>
          rw [main_of_nocompiler env h1 h2] at hf
          cases Option.some.inj hf
          exact clean_removes env.fs
      | some c =>
          cases h3 : compile_artifact
              (compile_project c env.platform env.compileOutcome) with
          | none =>
              rw [main_of_buildfail env c h1 h2 h3] at hf
              cases Option.some.inj hf
              exact clean_removes env.fs
          | some e =>
              rw [main_of_success env c e h1 h2 h3] at hf
              cases Option.some.inj hf
              exact clean_removes env.fs
    · rw [main_of_missing env h1] at hf
      simp at hf

/-- Witness for C7: cleaning a directory holding a stale a.out removes it,
and a full successful run records the cleaned filesystem before Build. -/
theorem clean_stage_spec_witness :
    "a.out" ∉ (clean_build ["a.out", "main.cpp"]).1
    ∧ Stage.clean ∈ (main envGood).stages
    ∧ "rideeasy" ∉ ["main.cpp", "User.h", "RideManager.h"] :=
  ⟨clean_stage_spec.1 ["a.out", "main.cpp"] "a.out" (by decide),
    (clean_stage_spec.2.1 envGood (by decide)).1,
    clean_stage_spec.2.2 envGood ["main.cpp", "User.h", "RideManager.h"]
      (by decide) "rideeasy" (by decide)⟩

/-- C8: Clean is idempotent: on a directory containing none of the
candidate artifacts it deletes nothing and logs nothing, and an immediate
second Clean after any Clean has no effect. -/
theorem clean_idempotent :
    (∀ fs : List String, (∀ a ∈ files_to_remove, a ∉ fs) →
      clean_build fs = (fs, []))
    ∧ ∀ fs : List String,
        clean_build (clean_build fs).1 = ((clean_build fs).1, []) := by
  refine ⟨clean_build_of_clean, fun fs => ?_⟩
  exact clean_build_of_clean (clean_build fs).1 (clean_removes fs)

/-- Witness for C8: cleaning an artifact-free directory changes nothing,
and a second Clean right after one on a dirty directory does nothing. -/
theorem clean_idempotent_witness :
    clean_build ["main.cpp", "User.h"] = (["main.cpp", "User.h"], [])
    ∧ clean_build (clean_build ["rideeasy", "main.cpp"]).1 =
        ((clean_build ["rideeasy", "main.cpp"]).1, []) :=
  ⟨clean_idempotent.1 ["main.cpp", "User.h"] (by decide),
    clean_idempotent.2 ["rideeasy", "main.cpp"]⟩

/-- C9: build-command construction is deterministic: any two invocations
that resolve the same compiler on the same platform record identical token
sequences, whatever else (filesystem, search path, subprocess outcomes)
differs between the environments. -/
theorem build_cmd_deterministic (e₁ e₂ : Env) (cmd₁ cmd₂ : List String)
    (hp : e₁.platform = e₂.platform)
    (hr : (main e₁).resolved = (main e₂).resolved)
    (h₁ : (main e₁).cmd = some cmd₁) (h₂ : (main e₂).cmd = some cmd₂) :
    cmd₁ = cmd₂ := by
  obtain ⟨c₁, hc₁, he₁⟩ := main_cmd_some e₁ cmd₁ h₁
  obtain ⟨c₂, hc₂, he₂⟩ := main_cmd_some e₂ cmd₂ h₂
  rw [hc₁, hc₂] at hr
  cases Option.some.inj hr
  rw [he₁, he₂, hp]

/-- Witness for C9: two runs differing in working directory, search path
and subprocess outcomes but agreeing on platform and resolved compiler
construct the same command. -/
theorem build_cmd_deterministic_witness :
    ["g++", "-std=c++17", "-Wall", "-Wextra", "-O2", "-I.", "main.cpp",
      "-o", "rideeasy"] =
    ["g++", "-std=c++17", "-Wall", "-Wextra", "-O2", "-I.", "main.cpp",
      "-o", "rideeasy"] :=
  build_cmd_deterministic envGood envAlt _ _ rfl (by decide) (by decide)
    (by decide)

/-- C10: the build command passes exactly one source file, main.cpp; the
headers User.h and RideManager.h never appear as compiler inputs, and the
include-path flag -I. is present. -/
theorem build_cmd_single_source (c p : String)
    (h : c = "g++" ∨ c = "clang++") :
    (build_cmd c p).count "main.cpp" = 1
    ∧ "User.h" ∉ build_cmd c p
    ∧ "RideManager.h" ∉ build_cmd c p
    ∧ "-I." ∈ build_cmd c p := by
  rcases h with rfl | rfl
  · by_cases hp : p = "Windows"
    · subst hp; decide
    · rw [build_cmd_eq, if_neg (fun hc => hp hc.1)]
      simp only [exe_name, if_neg hp, List.append_nil]
      decide
  · by_cases hp : p = "Windows"
    · subst hp; decide
    · rw [build_cmd_eq, if_neg (fun hc => hp hc.1)]
      simp only [exe_name, if_neg hp, List.append_nil]
      decide

/-- Witness for C10: the g++/Linux command carries main.cpp once, neither
header, and the -I. flag. -/
theorem build_cmd_single_source_witness :
    (build_cmd "g++" "Linux").count "main.cpp" = 1
    ∧ "User.h" ∉ build_cmd "g++" "Linux"
    ∧ "RideManager.h" ∉ build_cmd "g++" "Linux"
    ∧ "-I." ∈ build_cmd "g++" "Linux" :=
  build_cmd_single_source "g++" "Linux" (Or.inl rfl)

end RideEasy
